import Mathlib

/-!
Shallow embedding of src/app.py, the pdf-maker repository: the core routine
`convert_image_to_pdf(image_path, pdf_path)` (lines 10-59), which validates an
input image with PIL (`os.path.isfile`, `Image.open`, `img.verify()`,
`img.close()`), ensures the output directory exists (`os.makedirs`), converts
the image with the third-party `img2pdf.convert`, and writes the resulting PDF
bytes to disk.  Every error is handled by the `try/except` ladder of the
source and surfaced as a `(bool, str)` pair.

The PDF embedder itself lives in the external `img2pdf` library, not in this
repository; it is modelled here from the specification (section 4.2 of spec.md):
a single-page PDF whose page carries one image XObject, JPEG streams copied
verbatim under a DCT filter, other formats re-encoded under a lossless Flate
filter, page dimensions derived from pixel dimensions and DPI metadata with a
72 DPI default.
-/

/-- Bytes are modelled as natural numbers; a byte string is a list of them. -/
abbrev ByteStr := List Nat

/-- Python exception values that can arise in `convert_image_to_pdf`.  All of
these derive from Python's `Exception` class (asynchronous `BaseException`s
such as `KeyboardInterrupt` are outside the model).  Each carries the string
produced by `str(e)`. -/
inductive PyExc where
  | fileNotFound (detail : String)
  | isADirectory (detail : String)
  | unidentifiedImage (detail : String)
  | imageOpenError (detail : String)
  | osError (detail : String)
  | other (detail : String)
deriving DecidableEq, Repr

/-- The string `str(e)` of a modelled Python exception. -/
def pyMsg : PyExc → String
  | .fileNotFound d => d
  | .isADirectory d => d
  | .unidentifiedImage d => d
  | .imageOpenError d => d
  | .osError d => d
  | .other d => d

/-- The supported raster formats (spec.md section 6): sniffed from content. -/
inductive ImgFormat where
  | jpeg
  | png
  | bmp
  | gif
  | tiff
  | webp
deriving DecidableEq, Repr

/-- Modelled from the spec: an ImageStream, the result of sniffing raw input
bytes — format tag, pixel dimensions, optional DPI metadata, and the image
data stream (for JPEG, the native compressed stream; for the other formats,
the data the embedder will re-encode losslessly). -/
structure ImageData where
  format : ImgFormat
  width : Nat
  height : Nat
  dpi : Option Nat
  stream : ByteStr
deriving DecidableEq, Repr

/-- PDF stream filters used by the modelled embedder. -/
inductive PdfFilter where
  | dct
  | flate
deriving DecidableEq, Repr

/-- A PDF image XObject: pixel dimensions, filter entry, stream bytes. -/
structure PdfImage where
  width : Nat
  height : Nat
  filter : PdfFilter
  stream : ByteStr
deriving DecidableEq, Repr

/-- A PDF page: media box in user-space units and its single image XObject. -/
structure PdfPage where
  mediaBoxWidth : ℚ
  mediaBoxHeight : ℚ
  image : PdfImage
deriving DecidableEq, Repr

/-- A PDF document: its list of pages. -/
structure PdfDocument where
  pages : List PdfPage
deriving DecidableEq, Repr

/-- Modelled from the spec: the lossless Flate re-encoding used for non-JPEG
formats ("re-encode using a lossless PDF filter ... never a lossy encoding").
Losslessness is all the claims use, so the codec is modelled as the identity
transform on byte strings, which is trivially invertible. -/
def flateEncode (bs : ByteStr) : ByteStr := bs

/-- DPI metadata with the spec's default: 72 DPI when absent. -/
def effectiveDpi (img : ImageData) : Nat := img.dpi.getD 72

/-- Modelled from the spec: the img2pdf embedding step (spec.md section 4.2).
One page whose media box comes from pixel dimensions at the effective DPI
(1:1 scale in user-space units, 72 units per inch); JPEG streams are copied
verbatim under the DCT filter, all other formats go through the lossless
Flate encoding. -/
def img2pdfEmbed (img : ImageData) : PdfDocument :=
  { pages := [{
      mediaBoxWidth := (img.width : ℚ) * 72 / (effectiveDpi img : ℚ),
      mediaBoxHeight := (img.height : ℚ) * 72 / (effectiveDpi img : ℚ),
      image := {
        width := img.width,
        height := img.height,
        filter := match img.format with
          | .jpeg => .dct
          | _ => .flate,
        stream := match img.format with
          | .jpeg => img.stream
          | _ => flateEncode img.stream } }] }

/-- Numeric code of a filter in the modelled serialization. -/
def filterCode : PdfFilter → Nat
  | .dct => 0
  | .flate => 1

/-- Decode a filter code. -/
def parseFilter (n : Nat) : Option PdfFilter :=
  if n = 0 then some .dct else if n = 1 then some .flate else none

/-- Length-prefixed serialization of a byte string. -/
def serializeBytes (bs : ByteStr) : ByteStr := bs.length :: bs

/-- Consume a length-prefixed byte string. -/
def parseBytes : ByteStr → Option (ByteStr × ByteStr)
  | [] => none
  | n :: rest => if n ≤ rest.length then some (rest.take n, rest.drop n) else none

/-- Serialization of a rational page dimension: absolute numerator, sign flag,
denominator. -/
def serializeRat (q : ℚ) : ByteStr :=
  [q.num.natAbs, if q.num < 0 then 1 else 0, q.den]

/-- Consume a serialized rational. -/
def parseRat : ByteStr → Option (ℚ × ByteStr)
  | a :: s :: d :: rest =>
      some ((if s = 1 then -(a : ℚ) else (a : ℚ)) / (d : ℚ), rest)
  | _ => none

/-- Serialization of an image XObject. -/
def serializeImage (i : PdfImage) : ByteStr :=
  i.width :: i.height :: filterCode i.filter :: serializeBytes i.stream

/-- Consume a serialized image XObject. -/
def parseImage : ByteStr → Option (PdfImage × ByteStr)
  | w :: h :: f :: rest =>
      match parseFilter f with
      | none => none
      | some fl =>
        match parseBytes rest with
        | none => none
        | some (s, rest2) =>
            some ({ width := w, height := h, filter := fl, stream := s }, rest2)
  | _ => none

/-- Serialization of a page. -/
def serializePage (p : PdfPage) : ByteStr :=
  serializeRat p.mediaBoxWidth ++ serializeRat p.mediaBoxHeight ++
    serializeImage p.image

/-- Consume a serialized page. -/
def parsePage (bs : ByteStr) : Option (PdfPage × ByteStr) :=
  match parseRat bs with
  | none => none
  | some (w, rest1) =>
    match parseRat rest1 with
    | none => none
    | some (h, rest2) =>
      match parseImage rest2 with
      | none => none
      | some (i, rest3) =>
          some ({ mediaBoxWidth := w, mediaBoxHeight := h, image := i }, rest3)

/-- Consume a given number of serialized pages. -/
def parsePages : Nat → ByteStr → Option (List PdfPage × ByteStr)
  | 0, bs => some ([], bs)
  | n + 1, bs =>
    match parsePage bs with
    | none => none
    | some (p, rest) =>
      match parsePages n rest with
      | none => none
      | some (ps, rest2) => some (p :: ps, rest2)

/-- Modelled from the spec: serialization of the PDF object graph to a byte
stream (the invertible structural core of "header, indirect objects with
offsets, cross-reference table, trailer"). -/
def serializePdf (d : PdfDocument) : ByteStr :=
  d.pages.length :: (d.pages.map serializePage).flatten

/-- Modelled from the spec: a conformant reader's parse of the byte stream
back into the PDF object graph; `none` on malformed input. -/
def parsePdf (bs : ByteStr) : Option PdfDocument :=
  match bs with
  | [] => none
  | n :: rest =>
    match parsePages n rest with
    | some (ps, []) => some { pages := ps }
    | _ => none

/-- The environment one call of `convert_image_to_pdf` runs in: the outcome
of each primitive the Python body performs, in program order.  `Except`-valued
fields model calls that may raise (every modelled exception derives from
Python's `Exception`). -/
structure Env where
  /-- Result of `os.path.isfile(image_path)` (line 23).  `os.path.isfile`
  returns `False` for missing paths, directories and non-regular entries. -/
  isfile : Bool
  /-- Ground truth: whether `image_path` refers to a directory.  On POSIX a
  directory is never a regular file, so `isfile = false` whenever this
  holds. -/
  inputIsDirectory : Bool
  /-- Result of `Image.open(image_path)` (line 27).  On failure PIL closes
  the file handle it opened before raising (e.g. `UnidentifiedImageError`). -/
  pilOpen : Except PyExc Unit
  /-- Result of `img.verify()` (line 28), given that `Image.open` succeeded. -/
  pilVerify : Except PyExc Unit
  /-- Result of `os.path.dirname(pdf_path)` (line 38). -/
  outputDir : String
  /-- Result of `os.path.exists(output_dir)` (line 39). -/
  dirExists : Bool
  /-- Result of `os.makedirs(output_dir)` (line 41); creates the whole
  directory chain recursively when it succeeds. -/
  makedirs : Except PyExc Unit
  /-- Result of `open(image_path, "rb")` plus reading the raw bytes that
  img2pdf consumes (line 48); the `with` block closes this handle itself. -/
  readInput : Except PyExc ByteStr
  /-- Modelled from the spec: img2pdf's content sniffing of the raw bytes
  into an ImageStream (spec.md section 4.2 step 1); on failure img2pdf
  raises `ImageOpenError`. -/
  sniff : ByteStr → Except PyExc ImageData
  /-- Result of `open(pdf_path, "wb")` (line 51); when it succeeds the output
  file is created, or truncated if it already existed. -/
  openOutput : Except PyExc Unit
  /-- Result of `pdf_file.write(pdf_bytes)` (line 52), given that the open
  succeeded. -/
  writeOutput : Except PyExc Unit

/-- Observable side effects of one call of `convert_image_to_pdf`. -/
structure Effects where
  /-- The file handle acquired by `Image.open` is still open when the call
  returns. -/
  pilHandleOpen : Bool
  /-- `os.makedirs` ran to completion: the output directory chain now
  exists. -/
  dirCreated : Bool
  /-- `open(pdf_path, "wb")` ran: the output file was created or
  truncated. -/
  outputOpened : Bool
  /-- The byte stream fully written to the output file, when the write
  completed. -/
  outputWritten : Option ByteStr
deriving DecidableEq, Repr

/-- The empty side-effect record: nothing touched, nothing leaked. -/
def noEffects : Effects :=
  { pilHandleOpen := false, dirCreated := false, outputOpened := false,
    outputWritten := none }

/-- Lines 30-35 of src/app.py: the `except` ladder of the inner validation
`try` — `FileNotFoundError`, `IsADirectoryError`, then the catch-all
`except Exception` whose message carries the decoder detail `{e}`.
Surrounding single quotes of the source's f-strings are elided. -/
def validationExcept (image_path : String) (e : PyExc) : Bool × String :=
  match e with
  | .fileNotFound _ =>
      (false, "Error: Input image file not found at " ++ image_path)
  | .isADirectory _ =>
      (false, "Error: Expected an image file, but got a directory: " ++ image_path)
  | _ =>
      (false, "Error: Could not open or read image file " ++ image_path ++
        ". It might be corrupted or an unsupported format. Details: " ++ pyMsg e)

/-- Lines 56-59 of src/app.py: the outer `except` ladder —
`img2pdf.ImageOpenError` first, then the catch-all `except Exception`. -/
def outerExcept (image_path : String) (e : PyExc) : Bool × String :=
  match e with
  | .imageOpenError d =>
      (false, "Error: img2pdf could not process the image " ++ image_path ++
        ". Details: " ++ d)
  | _ =>
      (false, "An unexpected error occurred during PDF conversion: " ++ pyMsg e)

/-- Lines 45-54 of src/app.py: read the input bytes, run img2pdf over them
(sniff, embed, serialize — the spec-modelled `img2pdf.convert`), then open
the output file and write the assembled byte stream.  A raised exception
propagates as `.error` together with the effects performed so far. -/
def embedAndWrite (env : Env) (image_path pdf_path : String) (eff : Effects) :
    Except PyExc (Bool × String) × Effects :=
  match env.readInput with
  | .error e => (.error e, eff)
  | .ok bs =>
    match env.sniff bs with
    | .error e => (.error e, eff)
    | .ok img =>
      let pdf_bytes := serializePdf (img2pdfEmbed img)
      match env.openOutput with
      | .error e => (.error e, eff)
      | .ok _ =>
        match env.writeOutput with
        | .error e => (.error e, { eff with outputOpened := true })
        | .ok _ =>
            (.ok (true, "Successfully converted " ++ image_path ++ " to " ++ pdf_path),
             { eff with outputOpened := true, outputWritten := some pdf_bytes })

/-- Lines 37-43 of src/app.py: `output_dir = os.path.dirname(pdf_path)`; if
it is non-empty and does not exist, `os.makedirs` it, returning a failure
result on exception; then proceed to the conversion itself. -/
def ensureDirAndConvert (env : Env) (image_path pdf_path : String) (eff : Effects) :
    Except PyExc (Bool × String) × Effects :=
  if env.outputDir ≠ "" ∧ env.dirExists = false then
    match env.makedirs with
    | .error e =>
        (.ok (false, "Error: Could not create output directory " ++ env.outputDir ++
          ". Details: " ++ pyMsg e), eff)
    | .ok _ => embedAndWrite env image_path pdf_path { eff with dirCreated := true }
  else
    embedAndWrite env image_path pdf_path eff

/-- Lines 21-54 of src/app.py: the body of the outer `try`.  Line 23 checks
`os.path.isfile`; lines 26-35 validate with PIL inside the inner `try`
(`Image.open`, `img.verify()`, `img.close()` — note that line 29's
`img.close()` is executed only when `img.verify()` returns normally, there
is no `with` or `finally` around it); then directory creation and the
conversion. -/
def convertBody (env : Env) (image_path pdf_path : String) :
    Except PyExc (Bool × String) × Effects :=
  if env.isfile = false then
    (.ok (false, "Error: Input path is not a file: " ++ image_path), noEffects)
  else
    match env.pilOpen with
    | .error e => (.ok (validationExcept image_path e), noEffects)
    | .ok _ =>
      match env.pilVerify with
      | .error e =>
          (.ok (validationExcept image_path e),
           { noEffects with pilHandleOpen := true })
      | .ok _ =>
          ensureDirAndConvert env image_path pdf_path noEffects

/-- Lines 10-59 of src/app.py: `convert_image_to_pdf(image_path, pdf_path)`.
The outer `try` wraps the whole body; its `except img2pdf.ImageOpenError`
and `except Exception` clauses (lines 56-59) turn every modelled exception
into an `(False, message)` result, so the function itself never propagates
one (`.error` would model an uncaught exception escaping to the caller). -/
def convert_image_to_pdf (env : Env) (image_path pdf_path : String) :
    Except PyExc ((Bool × String) × Effects) :=
  match convertBody env image_path pdf_path with
  | (.ok r, eff) => .ok (r, eff)
  | (.error e, eff) => .ok (outerExcept image_path e, eff)

/-- One of the stages that run before the output file is opened fails:
the `os.path.isfile` check, PIL open, PIL verify, directory creation
(when the directory step is triggered), reading the input bytes, or
img2pdf's sniffing.  These are the validation, directory-creation and
embedding failures of the error taxonomy. -/
def preWriteFailure (env : Env) : Prop :=
  env.isfile = false ∨
  (∃ e, env.pilOpen = .error e) ∨
  (∃ e, env.pilVerify = .error e) ∨
  (env.outputDir ≠ "" ∧ env.dirExists = false ∧ ∃ e, env.makedirs = .error e) ∨
  (∃ e, env.readInput = .error e) ∨
  (∃ bs e, env.readInput = .ok bs ∧ env.sniff bs = .error e)

/-- A small valid JPEG image: 4 x 3 pixels, no DPI metadata, a concrete
compressed stream. -/
def sampleJpeg : ImageData :=
  { format := .jpeg, width := 4, height := 3, dpi := none,
    stream := [255, 216, 255, 217] }

/-- An environment in which every primitive succeeds and the input sniffs
as `sampleJpeg`. -/
def okEnv : Env :=
  { isfile := true, inputIsDirectory := false,
    pilOpen := .ok (), pilVerify := .ok (),
    outputDir := "", dirExists := true, makedirs := .ok (),
    readInput := .ok [255, 216, 255, 217],
    sniff := fun _ => .ok sampleJpeg,
    openOutput := .ok (), writeOutput := .ok () }

/-- An environment whose input path refers to a directory: `os.path.isfile`
returns `False` on it, and had `Image.open` ever run it would have raised
`IsADirectoryError`. -/
def dirInputEnv : Env :=
  { okEnv with
    isfile := false
    inputIsDirectory := true
    pilOpen := .error (.isADirectory "Is a directory") }

/-- An environment whose input is a regular file that is not an image:
`Image.open` raises `UnidentifiedImageError`. -/
def corruptInputEnv : Env :=
  { okEnv with
    pilOpen := .error (.unidentifiedImage "cannot identify image file") }

/-- An environment whose output parent directory is missing and whose
`os.makedirs` succeeds. -/
def missingDirEnv : Env :=
  { okEnv with outputDir := "outdir", dirExists := false }

/-- An environment whose input opens under PIL but whose structural
`img.verify()` pass raises (for example a truncated PNG). -/
def verifyFailEnv : Env :=
  { okEnv with pilVerify := .error (.other "broken data stream") }

/-- An environment in which everything succeeds up to and including
`open(pdf_path, "wb")`, but the final `pdf_file.write` raises (for example
the disk fills up). -/
def writeFailEnv : Env :=
  { okEnv with
    outputDir := "outdir"
    dirExists := false
    writeOutput := .error (.osError "No space left on device") }

/-- An environment whose output parent directory is missing, whose
`os.makedirs` succeeds, and whose input bytes img2pdf then rejects
(`ImageOpenError` during sniffing). -/
def embedFailEnv : Env :=
  { okEnv with
    outputDir := "outdir"
    dirExists := false
    sniff := fun _ => .error (.imageOpenError "unsupported colorspace") }

theorem parseBytes_serializeBytes (bs rest : ByteStr) :
    parseBytes (serializeBytes bs ++ rest) = some (bs, rest) := by
  simp [serializeBytes, parseBytes, List.take_left, List.drop_left]

theorem parseRat_serializeRat (q : ℚ) (rest : ByteStr) :
    parseRat (serializeRat q ++ rest) = some (q, rest) := by
  by_cases hq : q.num < 0
  · simp only [serializeRat, if_pos hq, List.cons_append, List.nil_append, parseRat,
      if_pos rfl, Option.some.injEq, Prod.mk.injEq, and_true]
    rw [Int.cast_natAbs, if_pos trivial, abs_of_neg hq]
    push_cast
    rw [neg_neg]
    exact Rat.num_div_den q
  · have h0 : (0 : Nat) ≠ 1 := by decide
    simp only [serializeRat, if_neg hq, List.cons_append, List.nil_append, parseRat,
      if_neg h0, Option.some.injEq, Prod.mk.injEq, and_true]
    rw [Int.cast_natAbs, abs_of_nonneg (le_of_not_lt hq)]
    exact Rat.num_div_den q

theorem parseImage_serializeImage (i : PdfImage) (rest : ByteStr) :
    parseImage (serializeImage i ++ rest) = some (i, rest) := by
  obtain ⟨w, h, f, s⟩ := i
  cases f <;>
    simp [serializeImage, parseImage, filterCode, parseFilter,
      parseBytes_serializeBytes]

theorem parsePage_serializePage (p : PdfPage) (rest : ByteStr) :
    parsePage (serializePage p ++ rest) = some (p, rest) := by
  simp [serializePage, parsePage, List.append_assoc, parseRat_serializeRat,
    parseImage_serializeImage]

theorem parsePages_serialize (ps : List PdfPage) (rest : ByteStr) :
    parsePages ps.length ((ps.map serializePage).flatten ++ rest) = some (ps, rest) := by
  induction ps generalizing rest with
  | nil => simp [parsePages]
  | cons p ps ih =>
      simp [parsePages, List.append_assoc, parsePage_serializePage, ih]

theorem parsePdf_serializePdf (d : PdfDocument) :
    parsePdf (serializePdf d) = some d := by
  have h := parsePages_serialize d.pages []
  simp only [List.append_nil] at h
  simp [serializePdf, parsePdf, h]

theorem validationExcept_fst (ip : String) (e : PyExc) :
    (validationExcept ip e).fst = false := by
  cases e <;> rfl

theorem outerExcept_fst (ip : String) (e : PyExc) :
    (outerExcept ip e).fst = false := by
  cases e <;> rfl

theorem convert_success_run (env : Env) (ip op : String) (img : ImageData)
    (bs : ByteStr)
    (hfile : env.isfile = true) (hopen : env.pilOpen = .ok ())
    (hverify : env.pilVerify = .ok ())
    (hdir : env.outputDir = "" ∨ env.dirExists = true ∨ env.makedirs = .ok ())
    (hread : env.readInput = .ok bs) (hsniff : env.sniff bs = .ok img)
    (hout : env.openOutput = .ok ()) (hwrite : env.writeOutput = .ok ()) :
    ∃ eff, convert_image_to_pdf env ip op =
      .ok ((true, "Successfully converted " ++ ip ++ " to " ++ op), eff) ∧
      eff.outputWritten = some (serializePdf (img2pdfEmbed img)) := by
  by_cases hcond : env.outputDir ≠ "" ∧ env.dirExists = false
  · have hmk : env.makedirs = .ok () := by
      rcases hdir with h | h | h
      · exact absurd h hcond.1
      · rw [hcond.2] at h; cases h
      · exact h
    refine ⟨Effects.mk false true true (some (serializePdf (img2pdfEmbed img))),
      ?_, rfl⟩
    simp [convert_image_to_pdf, convertBody, ensureDirAndConvert, embedAndWrite,
      hfile, hopen, hverify, hcond, hmk, hread, hsniff, hout, hwrite, noEffects]
  · refine ⟨Effects.mk false false true (some (serializePdf (img2pdfEmbed img))),
      ?_, rfl⟩
    simp [convert_image_to_pdf, convertBody, ensureDirAndConvert, embedAndWrite,
      hfile, hopen, hverify, hcond, hread, hsniff, hout, hwrite, noEffects]

/-- C1: for every valid image of a supported raster format, the conversion
returns `(true, message)` and the bytes written to the output path parse as
a PDF document with exactly one page whose embedded image has the input's
pixel dimensions. -/
theorem convert_valid_image_single_page_pdf (env : Env) (ip op : String)
    (img : ImageData) (bs : ByteStr)
    (hfile : env.isfile = true) (hopen : env.pilOpen = .ok ())
    (hverify : env.pilVerify = .ok ())
    (hdir : env.outputDir = "" ∨ env.dirExists = true ∨ env.makedirs = .ok ())
    (hread : env.readInput = .ok bs) (hsniff : env.sniff bs = .ok img)
    (hout : env.openOutput = .ok ()) (hwrite : env.writeOutput = .ok ()) :
    ∃ m eff, convert_image_to_pdf env ip op = .ok ((true, m), eff) ∧
      eff.outputWritten = some (serializePdf (img2pdfEmbed img)) ∧
      ∃ doc, parsePdf (serializePdf (img2pdfEmbed img)) = some doc ∧
        doc.pages.length = 1 ∧
        ∀ pg ∈ doc.pages, pg.image.width = img.width ∧
          pg.image.height = img.height := by
  obtain ⟨eff, hrun, hw⟩ := convert_success_run env ip op img bs hfile hopen
    hverify hdir hread hsniff hout hwrite
  refine ⟨_, eff, hrun, hw, img2pdfEmbed img, parsePdf_serializePdf _, ?_, ?_⟩
  · simp [img2pdfEmbed]
  · intro pg hpg
    simp only [img2pdfEmbed, List.mem_singleton] at hpg
    subst hpg
    exact ⟨rfl, rfl⟩

/-- C1 witness: the theorem instantiated at a concrete all-successful
environment whose input sniffs as a 4 x 3 JPEG. -/
theorem convert_valid_image_single_page_pdf_witness :
    ∃ m eff, convert_image_to_pdf okEnv "in.jpg" "out.pdf" = .ok ((true, m), eff) ∧
      eff.outputWritten = some (serializePdf (img2pdfEmbed sampleJpeg)) ∧
      ∃ doc, parsePdf (serializePdf (img2pdfEmbed sampleJpeg)) = some doc ∧
        doc.pages.length = 1 ∧
        ∀ pg ∈ doc.pages, pg.image.width = sampleJpeg.width ∧
          pg.image.height = sampleJpeg.height :=
  convert_valid_image_single_page_pdf okEnv "in.jpg" "out.pdf" sampleJpeg
    [255, 216, 255, 217] rfl rfl rfl (Or.inl rfl) rfl rfl rfl rfl

/-- C2: on every pair of string inputs and in every environment, the call
produces a `(bool, string)` result — the modelled outer `except` ladder
catches every exception, so none escapes to the caller. -/
theorem convert_total_no_uncaught_exception (env : Env) (ip op : String) :
    ∃ r, convert_image_to_pdf env ip op = .ok r := by
  unfold convert_image_to_pdf
  cases hb : convertBody env ip op with
  | mk res eff =>
    cases res with
    | ok r => exact ⟨(r, eff), rfl⟩
    | error e => exact ⟨(outerExcept ip e, eff), rfl⟩

/-- C3: whenever the conversion fails at validation, directory creation or
embedding — every stage that runs before `open(pdf_path, "wb")` — the result
is `(false, message)` and the output file is neither created nor modified:
it is not opened and nothing is written to it. -/
theorem convert_pre_write_failure_no_output (env : Env) (ip op : String)
    (h : preWriteFailure env) :
    (convert_image_to_pdf env ip op).map
      (fun r => (r.fst.fst, r.snd.outputOpened, r.snd.outputWritten)) =
      .ok (false, false, none) := by
  cases hfile : env.isfile with
  | false =>
      simp [convert_image_to_pdf, convertBody, hfile, noEffects, Except.map]
  | true =>
  cases hopen : env.pilOpen with
  | error e =>
      simp [convert_image_to_pdf, convertBody, hfile, hopen, noEffects,
        validationExcept_fst, Except.map]
  | ok u =>
  cases hverify : env.pilVerify with
  | error e =>
      simp [convert_image_to_pdf, convertBody, hfile, hopen, hverify, noEffects,
        validationExcept_fst, Except.map]
  | ok v =>
  by_cases hcond : env.outputDir ≠ "" ∧ env.dirExists = false
  · cases hmk : env.makedirs with
    | error e =>
        simp [convert_image_to_pdf, convertBody, ensureDirAndConvert, hfile,
          hopen, hverify, hcond, hmk, noEffects, Except.map]
    | ok w =>
      have hembed : (∃ e, env.readInput = .error e) ∨
          (∃ bs e, env.readInput = .ok bs ∧ env.sniff bs = .error e) := by
        rcases h with hf | ⟨e, he⟩ | ⟨e, he⟩ | ⟨hd, hex, e, he⟩ | he | he
        · rw [hfile] at hf; cases hf
        · rw [hopen] at he; cases he
        · rw [hverify] at he; cases he
        · rw [hmk] at he; cases he
        · exact Or.inl he
        · exact Or.inr he
      rcases hembed with ⟨e, he⟩ | ⟨bs, e, hbs, he⟩
      · simp [convert_image_to_pdf, convertBody, ensureDirAndConvert,
          embedAndWrite, hfile, hopen, hverify, hcond, hmk, he, noEffects,
          outerExcept_fst, Except.map]
      · simp [convert_image_to_pdf, convertBody, ensureDirAndConvert,
          embedAndWrite, hfile, hopen, hverify, hcond, hmk, hbs, he, noEffects,
          outerExcept_fst, Except.map]
  · have hembed : (∃ e, env.readInput = .error e) ∨
        (∃ bs e, env.readInput = .ok bs ∧ env.sniff bs = .error e) := by
      rcases h with hf | ⟨e, he⟩ | ⟨e, he⟩ | ⟨hd, hex, e, he⟩ | he | he
      · rw [hfile] at hf; cases hf
      · rw [hopen] at he; cases he
      · rw [hverify] at he; cases he
      · exact absurd ⟨hd, hex⟩ hcond
      · exact Or.inl he
      · exact Or.inr he
    rcases hembed with ⟨e, he⟩ | ⟨bs, e, hbs, he⟩
    · simp [convert_image_to_pdf, convertBody, ensureDirAndConvert,
        embedAndWrite, hfile, hopen, hverify, hcond, he, noEffects,
        outerExcept_fst, Except.map]
    · simp [convert_image_to_pdf, convertBody, ensureDirAndConvert,
        embedAndWrite, hfile, hopen, hverify, hcond, hbs, he, noEffects,
        outerExcept_fst, Except.map]

/-- C3 witness: the theorem instantiated at a concrete environment whose
input is a regular file that is not an image. -/
theorem convert_pre_write_failure_no_output_witness :
    (convert_image_to_pdf corruptInputEnv "bad.jpg" "out.pdf").map
      (fun r => (r.fst.fst, r.snd.outputOpened, r.snd.outputWritten)) =
      .ok (false, false, none) :=
  convert_pre_write_failure_no_output corruptInputEnv "bad.jpg" "out.pdf"
    (Or.inr (Or.inl ⟨.unidentifiedImage "cannot identify image file", rfl⟩))

/-- C4 counterexample: for a directory passed as the input path,
`os.path.isfile` returns `False`, so the call returns the generic
not-a-file message, which is not the directory-specific message the claim
requires; the `IsADirectoryError` handler of line 32 is unreachable. -/
theorem convert_directory_input_counterexample :
    convert_image_to_pdf dirInputEnv "imgs" "out.pdf" =
      .ok ((false, "Error: Input path is not a file: " ++ "imgs"), noEffects) ∧
    dirInputEnv.inputIsDirectory = true ∧
    "Error: Input path is not a file: " ++ "imgs" ≠
      "Error: Expected an image file, but got a directory: " ++ "imgs" := by
  refine ⟨rfl, rfl, ?_⟩
  decide

/-- C4 amended: for every input path that refers to a directory (so that
`os.path.isfile` returns `False` on it), the call returns the same
not-a-file failure used for missing or non-regular paths, naming the
path. -/
theorem convert_directory_input_not_a_file (env : Env) (ip op : String)
    (hdir : env.inputIsDirectory = true) (hfile : env.isfile = false) :
    convert_image_to_pdf env ip op =
      .ok ((false, "Error: Input path is not a file: " ++ ip), noEffects) := by
  simp [convert_image_to_pdf, convertBody, hfile]

/-- C4 amended witness: the amended theorem instantiated at the concrete
directory-input environment. -/
theorem convert_directory_input_not_a_file_witness :
    convert_image_to_pdf dirInputEnv "photos" "out.pdf" =
      .ok ((false, "Error: Input path is not a file: " ++ "photos"), noEffects) :=
  convert_directory_input_not_a_file dirInputEnv "photos" "out.pdf" rfl rfl

/-- C5: for a regular file whose contents cannot be parsed as any supported
image format (PIL raises `UnidentifiedImageError` on open, or the
structural verify pass raises), the call returns the corrupt-file failure
whose message carries the decoder's detail string. -/
theorem convert_unidentified_image_corrupt (env : Env) (ip op : String)
    (d : String)
    (hfile : env.isfile = true)
    (h : env.pilOpen = .error (.unidentifiedImage d) ∨
         (env.pilOpen = .ok () ∧ env.pilVerify = .error (.unidentifiedImage d))) :
    ∃ eff, convert_image_to_pdf env ip op =
      .ok ((false, "Error: Could not open or read image file " ++ ip ++
        ". It might be corrupted or an unsupported format. Details: " ++ d),
        eff) := by
  rcases h with he | ⟨ho, he⟩
  · exact ⟨noEffects, by
      simp [convert_image_to_pdf, convertBody, hfile, he, validationExcept, pyMsg]⟩
  · exact ⟨Effects.mk true false false none, by
      simp [convert_image_to_pdf, convertBody, hfile, ho, he, validationExcept,
        pyMsg, noEffects]⟩

/-- C5 witness: the theorem instantiated at the concrete corrupt-input
environment. -/
theorem convert_unidentified_image_corrupt_witness :
    ∃ eff, convert_image_to_pdf corruptInputEnv "fake.jpg" "out.pdf" =
      .ok ((false, "Error: Could not open or read image file " ++ "fake.jpg" ++
        ". It might be corrupted or an unsupported format. Details: " ++
        "cannot identify image file"), eff) :=
  convert_unidentified_image_corrupt corruptInputEnv "fake.jpg" "out.pdf"
    "cannot identify image file" rfl (Or.inl rfl)

/-- C6: for a valid input image and an output path whose parent directory
does not exist, a successful `os.makedirs` (which creates the chain
recursively) still leads to a success result; a failing `os.makedirs`
yields the directory-creation failure carrying the OS detail. -/
theorem convert_missing_dir_created_or_error (env : Env) (ip op : String)
    (img : ImageData) (bs : ByteStr)
    (hfile : env.isfile = true) (hopen : env.pilOpen = .ok ())
    (hverify : env.pilVerify = .ok ())
    (hdirname : env.outputDir ≠ "") (hexists : env.dirExists = false)
    (hread : env.readInput = .ok bs) (hsniff : env.sniff bs = .ok img)
    (hout : env.openOutput = .ok ()) (hwrite : env.writeOutput = .ok ()) :
    (env.makedirs = .ok () →
      ∃ m eff, convert_image_to_pdf env ip op = .ok ((true, m), eff) ∧
        eff.dirCreated = true) ∧
    (∀ d, env.makedirs = .error (.osError d) →
      convert_image_to_pdf env ip op =
        .ok ((false, "Error: Could not create output directory " ++
          env.outputDir ++ ". Details: " ++ d), noEffects)) := by
  constructor
  · intro hmk
    refine ⟨"Successfully converted " ++ ip ++ " to " ++ op,
      Effects.mk false true true (some (serializePdf (img2pdfEmbed img))),
      ?_, rfl⟩
    simp [convert_image_to_pdf, convertBody, ensureDirAndConvert, embedAndWrite,
      hfile, hopen, hverify, hdirname, hexists, hmk, hread, hsniff, hout,
      hwrite, noEffects]
  · intro d hmk
    simp [convert_image_to_pdf, convertBody, ensureDirAndConvert,
      hfile, hopen, hverify, hdirname, hexists, hmk, pyMsg, noEffects]

/-- C6 witness: the theorem instantiated at the concrete environment whose
output parent directory is missing and whose `os.makedirs` succeeds. -/
theorem convert_missing_dir_created_or_error_witness :
    (missingDirEnv.makedirs = .ok () →
      ∃ m eff, convert_image_to_pdf missingDirEnv "in.jpg" "outdir/out.pdf" =
        .ok ((true, m), eff) ∧ eff.dirCreated = true) ∧
    (∀ d, missingDirEnv.makedirs = .error (.osError d) →
      convert_image_to_pdf missingDirEnv "in.jpg" "outdir/out.pdf" =
        .ok ((false, "Error: Could not create output directory " ++
          missingDirEnv.outputDir ++ ". Details: " ++ d), noEffects)) :=
  convert_missing_dir_created_or_error missingDirEnv "in.jpg" "outdir/out.pdf"
    sampleJpeg [255, 216, 255, 217] rfl rfl rfl (by decide) rfl rfl rfl rfl rfl

/-- C8: for a JPEG input, the image stream embedded in the produced PDF is
the input's compressed stream copied verbatim under the DCT filter, so any
decoder applied to the extracted stream yields exactly what it yields on
the original stream — no recompression occurred. -/
theorem convert_jpeg_no_recompression (env : Env) (ip op : String)
    (img : ImageData) (bs : ByteStr)
    (hjpeg : img.format = .jpeg)
    (hfile : env.isfile = true) (hopen : env.pilOpen = .ok ())
    (hverify : env.pilVerify = .ok ())
    (hdir : env.outputDir = "" ∨ env.dirExists = true ∨ env.makedirs = .ok ())
    (hread : env.readInput = .ok bs) (hsniff : env.sniff bs = .ok img)
    (hout : env.openOutput = .ok ()) (hwrite : env.writeOutput = .ok ()) :
    ∃ m eff doc, convert_image_to_pdf env ip op = .ok ((true, m), eff) ∧
      eff.outputWritten = some (serializePdf (img2pdfEmbed img)) ∧
      parsePdf (serializePdf (img2pdfEmbed img)) = some doc ∧
      ∀ pg ∈ doc.pages, pg.image.filter = .dct ∧ pg.image.stream = img.stream ∧
        ∀ decode : ByteStr → ByteStr,
          decode pg.image.stream = decode img.stream := by
  obtain ⟨eff, hrun, hw⟩ := convert_success_run env ip op img bs hfile hopen
    hverify hdir hread hsniff hout hwrite
  refine ⟨_, eff, img2pdfEmbed img, hrun, hw, parsePdf_serializePdf _, ?_⟩
  intro pg hpg
  simp only [img2pdfEmbed, List.mem_singleton] at hpg
  subst hpg
  refine ⟨?_, ?_, ?_⟩
  · simp [hjpeg]
  · simp [hjpeg]
  · intro decode
    simp [hjpeg]

/-- C8 witness: the theorem instantiated at the concrete all-successful
JPEG environment. -/
theorem convert_jpeg_no_recompression_witness :
    ∃ m eff doc, convert_image_to_pdf okEnv "in.jpg" "out.pdf" =
      .ok ((true, m), eff) ∧
      eff.outputWritten = some (serializePdf (img2pdfEmbed sampleJpeg)) ∧
      parsePdf (serializePdf (img2pdfEmbed sampleJpeg)) = some doc ∧
      ∀ pg ∈ doc.pages, pg.image.filter = .dct ∧
        pg.image.stream = sampleJpeg.stream ∧
        ∀ decode : ByteStr → ByteStr,
          decode pg.image.stream = decode sampleJpeg.stream :=
  convert_jpeg_no_recompression okEnv "in.jpg" "out.pdf" sampleJpeg
    [255, 216, 255, 217] rfl rfl rfl rfl (Or.inl rfl) rfl rfl rfl rfl

/-- C9 (code bug): at an input that `Image.open` accepts but whose
`img.verify()` pass raises, line 29's `img.close()` is skipped — there is no
`with` block or `finally` around it — so the PIL file handle is still open
when the call returns its `(false, message)` result. -/
theorem convert_verify_failure_leaks_handle :
    convert_image_to_pdf verifyFailEnv "broken.png" "out.pdf" =
      .ok ((false, "Error: Could not open or read image file " ++ "broken.png" ++
        ". It might be corrupted or an unsupported format. Details: " ++
        "broken data stream"),
        Effects.mk true false false none) := by rfl

/-- C10 counterexample: when everything succeeds up to `open(pdf_path, "wb")`
but the final write raises, the call returns `(false, message)` even though
the output file was created (and truncated) — a failure return whose state
change is not limited to directory creation. -/
theorem convert_write_failure_counterexample :
    (convert_image_to_pdf writeFailEnv "in.jpg" "outdir/out.pdf").map
      (fun r => (r.fst.fst, r.snd.dirCreated, r.snd.outputOpened)) =
      .ok (false, true, true) := by rfl

/-- C10 amended: if validation succeeds, the missing output directory chain
is created before embedding is attempted, and when embedding itself fails
(reading the input bytes, or img2pdf rejecting them) the call returns
`(false, message)` with the created directories persisting and the output
file untouched; only a failure during the final write can additionally
leave a created output file. -/
theorem convert_embed_failure_keeps_created_dirs (env : Env) (ip op : String)
    (hfile : env.isfile = true) (hopen : env.pilOpen = .ok ())
    (hverify : env.pilVerify = .ok ())
    (hdirname : env.outputDir ≠ "") (hexists : env.dirExists = false)
    (hmk : env.makedirs = .ok ())
    (hembed : (∃ e, env.readInput = .error e) ∨
              (∃ bs e, env.readInput = .ok bs ∧ env.sniff bs = .error e)) :
    ∃ m, convert_image_to_pdf env ip op =
      .ok ((false, m), Effects.mk false true false none) := by
  rcases hembed with ⟨e, he⟩ | ⟨bs, e, hbs, he⟩
  · refine ⟨(outerExcept ip e).snd, ?_⟩
    cases e <;>
      simp [convert_image_to_pdf, convertBody, ensureDirAndConvert,
        embedAndWrite, hfile, hopen, hverify, hdirname, hexists, hmk, he,
        noEffects, outerExcept, pyMsg]
  · refine ⟨(outerExcept ip e).snd, ?_⟩
    cases e <;>
      simp [convert_image_to_pdf, convertBody, ensureDirAndConvert,
        embedAndWrite, hfile, hopen, hverify, hdirname, hexists, hmk, hbs, he,
        noEffects, outerExcept, pyMsg]

/-- C10 amended witness: the amended theorem instantiated at the concrete
environment whose sniffing fails after the directory chain was created. -/
theorem convert_embed_failure_keeps_created_dirs_witness :
    ∃ m, convert_image_to_pdf embedFailEnv "in.jpg" "outdir/out.pdf" =
      .ok ((false, m), Effects.mk false true false none) :=
  convert_embed_failure_keeps_created_dirs embedFailEnv "in.jpg" "outdir/out.pdf"
    rfl rfl rfl (by decide) rfl rfl
    (Or.inr ⟨[255, 216, 255, 217], .imageOpenError "unsupported colorspace",
      rfl, rfl⟩)
